import Mathlib

/-!
# gosnmp `decode.go`: a shallow embedding

The file `decode.go` decodes an SNMP packet in three steps: `asn1.Unmarshal`
of the outer `Message`, `asn1.UnmarshalWithParams` of the body into a `PDU`,
and `decodeValue` on every `VarBind`.

Conventions of the embedding.

* Bytes are natural numbers (`List Nat` is `[]byte`); Go `int`, `int32`,
  `int64` values are integers.
* A Go function that returns `error` and writes through a pointer becomes a
  function that takes the pointed-to value and returns the error together with
  the value behind the pointer after the call.
* The package `encoding/asn1` is Go's standard library, not part of this
  repository.  `decode` and `decodeValue` take it as a parameter
  (`Asn1`); `goAsn1At` is a model of the fragment of that package that SNMP
  packets exercise, and `goAsn1` is that model in one run.
-/

namespace Gosnmp

/-! ## Data model (decode.go, lines 12-61) -/

/-- The Go type `Asn1BER` is `byte`. -/
abbrev Asn1BER := Nat

def NoSuchObject : Asn1BER := 0x00
def NoSuchInstance : Asn1BER := 0x01
def Integer : Asn1BER := 0x02
def BitString : Asn1BER := 0x03
def OctetString : Asn1BER := 0x04
def Null : Asn1BER := 0x05
def ObjectIdentifier : Asn1BER := 0x06
def Counter32 : Asn1BER := 0x41
def Gauge32 : Asn1BER := 0x42
def TimeTicks : Asn1BER := 0x43
def Opaque : Asn1BER := 0x44
def NsapAddress : Asn1BER := 0x45
def Counter64 : Asn1BER := 0x46
def Uinteger32 : Asn1BER := 0x47

/-- The Go struct `asn1.RawValue`: `Class` holds the two top bits of the
identifier octet, `IsCompound` bit 6, `Tag` the tag number; `Bytes` is the
content and `FullBytes` the whole encoding, header included. -/
structure RawValue where
  Class : Int
  Tag : Int
  IsCompound : Bool
  Bytes : List Nat
  FullBytes : List Nat
deriving DecidableEq, Repr

/-- What an `interface{}` destination holds after `encoding/asn1` has parsed
into it. -/
inductive AnyValue where
  /-- the nil interface: nothing was stored -/
  | nil
  /-- an `int64`, from a universal INTEGER -/
  | int64 (v : Int)
  /-- a `[]byte`, from a universal OCTET STRING -/
  | bytes (b : List Nat)
  /-- an `asn1.ObjectIdentifier`, from a universal OBJECT IDENTIFIER -/
  | oid (o : List Int)
  /-- a value of one of the other universal primitive types that
  `encoding/asn1` stores in an `interface{}` (booleans, bit strings, character
  strings, times), kept as tag number and content bytes -/
  | universal (tag : Int) (content : List Nat)
deriving DecidableEq, Repr

/-- The dynamic content of `Variable.Value` (an `interface{}`), which line 130
takes from the variable `val`. -/
inductive Value where
  /-- the zero value of the field -/
  | nil
  /-- `iface a` with `a` not nil: the value `a` that `encoding/asn1` stored in
  `val`; `iface AnyValue.nil`: the pointer of `new(interface{})`, which points
  to a nil interface -/
  | iface (a : AnyValue)
  /-- the pointer of `new(int32)`, which points to `v` -/
  | int32 (v : Int)
  /-- the pointer of `new(int64)`, which points to `v` -/
  | int64 (v : Int)
deriving DecidableEq, Repr

/-- The pointer that `decodeValue` puts in `val` before the call of line 124. -/
inductive Target where
  /-- `new(interface{})` -/
  | iface
  /-- `new(int32)` -/
  | int32
  /-- `new(int64)` -/
  | int64
deriving DecidableEq, Repr

structure Variable where
  Name : List Int
  /-- the field `Type` of the Go struct -/
  Type_ : Asn1BER
  Value : Value
deriving DecidableEq, Repr

structure VarBind where
  Name : List Int
  Value : RawValue
deriving DecidableEq, Repr

structure PDU where
  RequestId : Int
  ErrorStatus : Int
  ErrorIndex : Int
  VarBindList : List VarBind
deriving DecidableEq, Repr

structure PDUResponse where
  RequestId : Int
  ErrorStatus : Int
  ErrorIndex : Int
  VarBindList : List Variable
deriving DecidableEq, Repr

structure Message where
  Version : Int
  Community : List Nat
  Data : RawValue
deriving DecidableEq, Repr

/-- Zero value of `asn1.RawValue`. -/
def RawValue.zero : RawValue := ⟨0, 0, false, [], []⟩

/-- Zero value of `Variable`, as `make([]Variable, n)` fills the slice. -/
def Variable.zero : Variable := ⟨[], 0, Value.nil⟩

/-- Zero value of `PDU`, as `var pdu PDU` declares it. -/
def PDU.zero : PDU := ⟨0, 0, 0, []⟩

/-- Zero value of `PDUResponse`, as `var resp PDUResponse` declares it. -/
def PDUResponse.zero : PDUResponse := ⟨0, 0, 0, []⟩

/-! ## Errors -/

/-- The error values of `encoding/asn1`: `asn1.StructuralError` and
`asn1.SyntaxError`, each with its message, and plain errors. -/
inductive Asn1Error where
  | structural (msg : String)
  | syntaxErr (msg : String)
  /-- an error made with `errors.New` -/
  | other (msg : String)
deriving DecidableEq, Repr

/-- An operand of `fmt.Errorf`. -/
inductive Arg where
  /-- a `[]byte` operand -/
  | bytes (b : List Nat)
  /-- a `PDU` operand -/
  | pdu (p : PDU)
  /-- an `error` operand coming from `encoding/asn1` -/
  | cause (e : Asn1Error)
  /-- an `int` operand -/
  | int (n : Int)
  /-- a `byte` operand -/
  | byte (b : Nat)
deriving DecidableEq, Repr

/-- The errors of `decode.go`.  `fmt.Errorf(format, args...)` is kept as its
format string and its operands, so that two errors are equal exactly when they
were built from the same format and the same operands. -/
inductive Error where
  /-- an error of `encoding/asn1`, returned as it is -/
  | asn1 (e : Asn1Error)
  /-- the value of `fmt.Errorf(format, args...)` -/
  | errorf (format : String) (args : List Arg)
  /-- a Go run-time panic, which ends the call without a returned value -/
  | panic (msg : String)
deriving DecidableEq, Repr

/-- Equality of `Except` values is decidable when it is for both sides. -/
instance decEqExcept {ε α : Type} [DecidableEq ε] [DecidableEq α] :
    DecidableEq (Except ε α)
  | .ok a, .ok b => if h : a = b then isTrue (by rw [h]) else isFalse (fun h2 => h (by cases h2; rfl))
  | .error a, .error b =>
    if h : a = b then isTrue (by rw [h]) else isFalse (fun h2 => h (by cases h2; rfl))
  | .ok _, .error _ => isFalse (fun h => by cases h)
  | .error _, .ok _ => isFalse (fun h => by cases h)

/-! ## The `encoding/asn1` interface used by `decode.go` -/

/-- The three uses that `decode.go` makes of `encoding/asn1`.

* `Unmarshal data` is `asn1.Unmarshal(data, &m)` with `m` a `Message`.
* `UnmarshalPDU bytes params` is `asn1.UnmarshalWithParams(bytes, &pdu, params)`
  with `pdu` a zero `PDU`; the result is `pdu` after the call (Go fills the
  struct field by field, so it may be partly filled when the call fails) and
  the returned error.
* `UnmarshalValue bytes target params` is
  `asn1.UnmarshalWithParams(bytes, &val, params)` in `decodeValue`, where
  `val` holds the pointer allocated for `target`; the result is `val` after
  the call. -/
structure Asn1 where
  Unmarshal : List Nat → Except Asn1Error Message
  UnmarshalPDU : List Nat → String → PDU × Option Asn1Error
  UnmarshalValue : List Nat → Target → String → Except Asn1Error Value

/-- The string `fmt.Sprint("tag:", tag)`: `Sprint` puts no space next to a
string operand and prints an `int` in decimal. -/
def sprintTag (tag : Int) : String := "tag:" ++ toString tag

/-! ## decode.go, lines 63-141 -/

/-- The conversion `Asn1BER(data.Tag)` of an `int` to a `byte`: the low eight
bits. -/
def toAsn1BER (tag : Int) : Asn1BER := (tag % 256).toNat

/-- The outcome of `decodeValue`: the returned error (`none` is Go's `nil`)
and `*retVal` after the call. -/
structure ValueResult where
  err : Option Error
  retVal : Variable
deriving DecidableEq, Repr

/-- The operand `data[0]` of the default branch of `decodeValue`: the first
byte of the raw value, which is its identifier octet.  Go panics on an index
out of range. -/
def firstByte (data : RawValue) : Except Error Nat :=
  match data.FullBytes with
  | [] => .error (Error.panic "index out of range")
  | b :: _ => .ok b

/-- The function `decodeValue` (lines 105-133).

`m` is the variable that line 124 reads as `m.Data.FullBytes`; `decodeValue`
declares no `m`, the only `m` of the file is the `Message` of `decode`, and
`decode` passes it.  `name` is the `v.Name` that `decode` passes and that
line 128 stores in a `[]int` field.  The `params` of lines 110-116 is not
read again: line 124 builds its own hint from `data.Tag`. -/
def decodeValue (lib : Asn1) (m : Message) (name : List Int) (data : RawValue)
    (retVal : Variable) : ValueResult :=
  let t := toAsn1BER data.Tag
  let withTarget (target : Target) : ValueResult :=
    match lib.UnmarshalValue m.Data.FullBytes target (sprintTag data.Tag) with
    | .error e => ⟨some (Error.asn1 e), retVal⟩
    | .ok val => ⟨none, ⟨name, toAsn1BER data.Tag, val⟩⟩
  if t = Integer ∨ t = OctetString then
    withTarget Target.iface
  else if t = Counter32 ∨ t = TimeTicks ∨ t = Gauge32 then
    withTarget Target.int32
  else if t = Counter64 then
    withTarget Target.int64
  else if t = NoSuchInstance then
    ⟨some (Error.errorf "No such instance" []), retVal⟩
  else if t = NoSuchObject then
    ⟨some (Error.errorf "No such object" []), retVal⟩
  else
    match firstByte data with
    | .error e => ⟨some e, retVal⟩
    | .ok b => ⟨some (Error.errorf "Unable to decode %x - not implemented" [Arg.byte b]), retVal⟩

/-- The loop of lines 91-97: `vars` is `resp.VarBindList`, `c` the index of
the next binding.  Each call of `decodeValue` gets `&resp.VarBindList[c]`; the
first error ends the loop. -/
def decodeVars (lib : Asn1) (m : Message) :
    List VarBind → Nat → List Variable → Option Error × List Variable
  | [], _, vars => (none, vars)
  | v :: rest, c, vars =>
    let r := decodeValue lib m v.Name v.Value (vars.getD c Variable.zero)
    let vars1 := vars.set c r.retVal
    match r.err with
    | some e => (some e, vars1)
    | none => decodeVars lib m rest (c + 1) vars1

/-- The outcome of `decode`.

* `err` is the returned error (`none` is Go's `nil`).
* `resp` is the response that line 99 assigns (`pdu = &resp`), when the call
  gets that far.
* `caller` is the `PDUResponse` behind the pointer that the caller passed,
  after the call. -/
structure DecodeResult where
  err : Option Error
  resp : Option PDUResponse
  caller : PDUResponse
deriving DecidableEq, Repr

/-- The function `decode` (lines 63-103).  `caller` is the `PDUResponse` that
the argument `pdu` points to.  No statement of `decode` stores through that
pointer: line 99 assigns the address of `resp` to the name `pdu` itself, which
inside the `case` is moreover the `PDU` of line 74.  Line 67 (`return nil, err`)
returns the error of `asn1.Unmarshal`; line 100 returns `nil`. -/
def decode (lib : Asn1) (data : List Nat) (caller : PDUResponse) : DecodeResult :=
  match lib.Unmarshal data with
  | .error e => ⟨some (Error.asn1 e), none, caller⟩
  | .ok m =>
    let tag := m.Data.Tag
    if tag = 0x20 ∨ tag = 0x21 ∨ tag = 0x22 then
      match lib.UnmarshalPDU m.Data.FullBytes (sprintTag tag) with
      | (pdu, some e) =>
        ⟨some (Error.errorf "Error decoding pdu: %#v, %#v, %s"
          [Arg.bytes m.Data.FullBytes, Arg.pdu pdu, Arg.cause e]), none, caller⟩
      | (pdu, none) =>
        let vars0 := List.replicate pdu.VarBindList.length Variable.zero
        match decodeVars lib m pdu.VarBindList 0 vars0 with
        | (some e, _) => ⟨some e, none, caller⟩
        | (none, vars) =>
          ⟨none, some ⟨pdu.RequestId, pdu.ErrorStatus, pdu.ErrorIndex, vars⟩, caller⟩
    else
      ⟨some (Error.errorf "Unable to decode type: %#v\n" [Arg.int tag]), none, caller⟩

/-- The function `ParseUint16` (lines 135-141).  Both operands are `uint8`, so
the shift and the `|` are taken modulo `2^8`; `content[1]` is read first. -/
def ParseUint16 (content : List Nat) : Except Error Int :=
  match content[1]?, content[0]? with
  | some b1, some b0 => .ok (((b1 % 256) ||| ((b0 % 256) * 2 ^ 8 % 256)) % 256 : Nat)
  | _, _ => .error (Error.panic "index out of range")

/-! ## A model of `encoding/asn1`

The functions below follow the functions of the same names in Go's
`encoding/asn1/asn1.go`, for the destination types that `decode.go` uses:
`Message`, `PDU`, `VarBind`, `interface{}`, `int32` and `int64`.  Offsets into
a slice become the list of the bytes that are left.  `int` is 64 bits wide. -/

namespace GoAsn1

/-- The Go struct `tagAndLength`. -/
structure TagAndLength where
  cls : Nat
  tag : Nat
  length : Nat
  isCompound : Bool
deriving DecidableEq, Repr

/-- The function `parseBase128Int`; `shifted` counts the bytes read so far and
`acc` is `ret64`.  The result is the integer and the bytes after it. -/
def parseBase128Int : List Nat → Nat → Nat → Except Asn1Error (Nat × List Nat)
  | [], _, _ => .error (Asn1Error.syntaxErr "truncated base 128 integer")
  | b :: rest, shifted, acc =>
    if shifted = 5 then
      .error (Asn1Error.structural "base 128 integer too large")
    else if shifted = 0 ∧ b = 0x80 then
      .error (Asn1Error.syntaxErr "integer is not minimally encoded")
    else
      let acc1 := acc * 128 + b % 128
      if b / 128 % 2 = 0 then
        if acc1 > 2 ^ 31 - 1 then
          .error (Asn1Error.structural "base 128 integer too large")
        else .ok (acc1, rest)
      else parseBase128Int rest (shifted + 1) acc1

/-- The long-form length loop of `parseTagAndLength`: `numBytes` bytes are
still to be read and `acc` is `ret.length`. -/
def parseLength : Nat → Nat → List Nat → Except Asn1Error (Nat × List Nat)
  | 0, acc, rest => .ok (acc, rest)
  | _ + 1, _, [] => .error (Asn1Error.syntaxErr "truncated tag or length")
  | n + 1, acc, b :: rest =>
    if acc ≥ 2 ^ 23 then
      .error (Asn1Error.structural "length too large")
    else
      let acc1 := acc * 256 + b
      if acc1 = 0 then
        .error (Asn1Error.structural "superfluous leading zeros in length")
      else parseLength n acc1 rest

/-- The length octets, after the identifier octets. -/
def parseLengthOctets (cls tag : Nat) (isCompound : Bool) :
    List Nat → Except Asn1Error (TagAndLength × List Nat)
  | [] => .error (Asn1Error.syntaxErr "truncated tag or length")
  | l :: rest =>
    if l / 128 % 2 = 0 then
      .ok (⟨cls, tag, l % 128, isCompound⟩, rest)
    else if l % 128 = 0 then
      .error (Asn1Error.syntaxErr "indefinite length found (not DER)")
    else
      match parseLength (l % 128) 0 rest with
      | .error e => .error e
      | .ok (len, rest1) =>
        if len < 0x80 then .error (Asn1Error.structural "non-minimal length")
        else .ok (⟨cls, tag, len, isCompound⟩, rest1)

/-- The function `parseTagAndLength`: the header and the bytes after it.  The
class is `b >> 6`, the compound flag `b & 0x20`, the tag number `b & 0x1f`, or
the base-128 integer that follows when those five bits are all set. -/
def parseTagAndLength : List Nat → Except Asn1Error (TagAndLength × List Nat)
  | [] => .error (Asn1Error.other "asn1: internal error in parseTagAndLength")
  | b :: rest =>
    let cls := b / 64
    let isCompound := decide (b / 32 % 2 = 1)
    if b % 32 = 0x1f then
      match parseBase128Int rest 0 0 with
      | .error e => .error e
      | .ok (tag, rest1) =>
        if tag < 0x1f then .error (Asn1Error.syntaxErr "non-minimal tag")
        else parseLengthOctets cls tag isCompound rest1
    else parseLengthOctets cls (b % 32) isCompound rest

/-- The function `checkInteger`. -/
def checkInteger : List Nat → Except Asn1Error Unit
  | [] => .error (Asn1Error.structural "empty integer")
  | [_] => .ok ()
  | b0 :: b1 :: _ =>
    if (b0 = 0 ∧ b1 / 128 % 2 = 0) ∨ (b0 = 0xff ∧ b1 / 128 % 2 = 1) then
      .error (Asn1Error.structural "integer not minimally-encoded")
    else .ok ()

/-- The bytes read as one big-endian unsigned number: the loop
`ret <<= 8; ret |= int64(b)` of `parseInt64`. -/
def beNat (bytes : List Nat) : Nat :=
  bytes.foldl (fun acc b => acc * 256 + b) 0

/-- The function `parseInt64`: at most eight bytes, read big-endian and
sign-extended from their top bit (the two shifts by `64 - len*8`). -/
def parseInt64 (bytes : List Nat) : Except Asn1Error Int :=
  match checkInteger bytes with
  | .error e => .error e
  | .ok _ =>
    if bytes.length > 8 then .error (Asn1Error.structural "integer too large")
    else
      let u := beNat bytes
      if 2 ^ (8 * bytes.length - 1) ≤ u then .ok ((u : Int) - 2 ^ (8 * bytes.length))
      else .ok (u : Int)

/-- The function `parseInt32`: `parseInt64`, then the check
`ret64 != int64(int32(ret64))`. -/
def parseInt32 (bytes : List Nat) : Except Asn1Error Int :=
  match checkInteger bytes with
  | .error e => .error e
  | .ok _ =>
    match parseInt64 bytes with
    | .error e => .error e
    | .ok ret64 =>
      if ret64 < -(2 ^ 31) ∨ 2 ^ 31 ≤ ret64 then
        .error (Asn1Error.structural "integer too large")
      else .ok ret64

/-- The loop of `parseObjectIdentifier` after the first sub-identifier. -/
def parseSubIds : Nat → List Nat → Except Asn1Error (List Int)
  | _, [] => .ok []
  | 0, _ :: _ => .error (Asn1Error.other "out of fuel")
  | fuel + 1, b :: rest =>
    match parseBase128Int (b :: rest) 0 0 with
    | .error e => .error e
    | .ok (v, rest1) =>
      match parseSubIds fuel rest1 with
      | .error e => .error e
      | .ok vs => .ok ((v : Int) :: vs)

/-- The function `parseObjectIdentifier`. -/
def parseObjectIdentifier (bytes : List Nat) : Except Asn1Error (List Int) :=
  match bytes with
  | [] => .error (Asn1Error.syntaxErr "zero length OBJECT IDENTIFIER")
  | _ :: _ =>
    match parseBase128Int bytes 0 0 with
    | .error e => .error e
    | .ok (v, rest) =>
      match parseSubIds bytes.length rest with
      | .error e => .error e
      | .ok vs =>
        if v < 80 then .ok (((v / 40 : Nat) : Int) :: ((v % 40 : Nat) : Int) :: vs)
        else .ok (2 :: ((v : Int) - 80) :: vs)

/-- The text of the `asn1.StructuralError` for a header that does not match.
Go prints the expected tag, the header, the field parameters with `%+v`, the
type name and the position; the field parameters hold the tag hint as a
pointer, so under a hint the text contains the address at which the hint was
allocated, which is not a function of the input.  The model keeps the constant
start of the text and that address. -/
def mismatchText (hintAddr : Option Nat) : String :=
  match hintAddr with
  | none => "tags don't match"
  | some a => "tags don't match, tag:" ++ toString a

/-- The part of `parseField` common to the typed destinations: the check for
exhausted data, the header, the comparison with the expected class, tag and
compound flag, and the length check.  The result is the content and the
bytes after the element.  `hintAddr` is the address of the tag hint in the
field parameters, when there is one. -/
def parseHeader (hintAddr : Option Nat) (expClass expTag : Int) (expCompound : Bool)
    (bytes : List Nat) : Except Asn1Error (List Nat × List Nat) :=
  match bytes with
  | [] => .error (Asn1Error.syntaxErr "sequence truncated")
  | _ :: _ =>
    match parseTagAndLength bytes with
    | .error e => .error e
    | .ok (t, rest) =>
      if (t.cls : Int) ≠ expClass ∨ (t.tag : Int) ≠ expTag ∨ t.isCompound ≠ expCompound then
        .error (Asn1Error.structural (mismatchText hintAddr))
      else if t.length > rest.length then
        .error (Asn1Error.syntaxErr "data truncated")
      else .ok (rest.take t.length, rest.drop t.length)

/-- The function `parseField` for a destination of type `asn1.RawValue`: any
class and tag match. -/
def parseRawValue (bytes : List Nat) : Except Asn1Error (RawValue × List Nat) :=
  match bytes with
  | [] => .error (Asn1Error.syntaxErr "sequence truncated")
  | _ :: _ =>
    match parseTagAndLength bytes with
    | .error e => .error e
    | .ok (t, rest) =>
      if t.length > rest.length then
        .error (Asn1Error.syntaxErr "data truncated")
      else
        .ok (⟨t.cls, t.tag, t.isCompound, rest.take t.length,
              bytes.take (bytes.length - rest.length + t.length)⟩, rest.drop t.length)

/-- The function `parseField` for an `int` or `int64` destination. -/
def parseIntField (bytes : List Nat) : Except Asn1Error (Int × List Nat) :=
  match parseHeader none 0 2 false bytes with
  | .error e => .error e
  | .ok (inner, rest) =>
    match parseInt64 inner with
    | .error e => .error e
    | .ok v => .ok (v, rest)

/-- The function `parseField` for an `int32` destination. -/
def parseInt32Field (bytes : List Nat) : Except Asn1Error (Int × List Nat) :=
  match parseHeader none 0 2 false bytes with
  | .error e => .error e
  | .ok (inner, rest) =>
    match parseInt32 inner with
    | .error e => .error e
    | .ok v => .ok (v, rest)

/-- The function `parseField` for a `VarBind`: a SEQUENCE of an OBJECT
IDENTIFIER and a raw value; bytes after the last field are allowed. -/
def parseVarBind (bytes : List Nat) : Except Asn1Error (VarBind × List Nat) :=
  match parseHeader none 0 16 true bytes with
  | .error e => .error e
  | .ok (inner, rest) =>
    match parseHeader none 0 6 false inner with
    | .error e => .error e
    | .ok (oidBytes, inner1) =>
      match parseObjectIdentifier oidBytes with
      | .error e => .error e
      | .ok name =>
        match parseRawValue inner1 with
        | .error e => .error e
        | .ok (value, _) => .ok (⟨name, value⟩, rest)

/-- The first loop of `parseSequenceOf`: count the elements, checking each
header. -/
def countElements : Nat → List Nat → Except Asn1Error Nat
  | _, [] => .ok 0
  | 0, _ :: _ => .error (Asn1Error.other "out of fuel")
  | fuel + 1, b :: bs =>
    match parseTagAndLength (b :: bs) with
    | .error e => .error e
    | .ok (t, rest) =>
      if t.cls ≠ 0 ∨ t.isCompound ≠ true ∨ t.tag ≠ 16 then
        .error (Asn1Error.structural "sequence tag mismatch")
      else if t.length > rest.length then
        .error (Asn1Error.syntaxErr "truncated sequence")
      else
        match countElements fuel (rest.drop t.length) with
        | .error e => .error e
        | .ok n => .ok (n + 1)

/-- The second loop of `parseSequenceOf`: parse `numElements` elements. -/
def parseElements : Nat → List Nat → Except Asn1Error (List VarBind)
  | 0, _ => .ok []
  | n + 1, bytes =>
    match parseVarBind bytes with
    | .error e => .error e
    | .ok (v, rest) =>
      match parseElements n rest with
      | .error e => .error e
      | .ok vs => .ok (v :: vs)

/-- The function `parseSequenceOf` for `[]VarBind`. -/
def parseSequenceOf (bytes : List Nat) : Except Asn1Error (List VarBind) :=
  match countElements bytes.length bytes with
  | .error e => .error e
  | .ok n => parseElements n bytes

/-- Decimal digits read as a number. -/
def digitsToNat : List Char → Nat → Option Nat
  | [], acc => some acc
  | c :: cs, acc =>
    if '0' ≤ c ∧ c ≤ '9' then digitsToNat cs (acc * 10 + (c.toNat - '0'.toNat))
    else none

/-- The function `parseFieldParameters` on the strings that `decode.go` passes:
`tag:` followed by a decimal integer gives that tag; any other string gives no
tag. -/
def parseFieldParameters (params : String) : Option Int :=
  match params.data with
  | 't' :: 'a' :: 'g' :: ':' :: '-' :: d :: ds =>
    (digitsToNat (d :: ds) 0).map (fun n => -(n : Int))
  | 't' :: 'a' :: 'g' :: ':' :: d :: ds =>
    (digitsToNat (d :: ds) 0).map (fun n => (n : Int))
  | _ => none

/-- The expected class of `parseField`: context-specific under a tag hint,
universal otherwise. -/
def expectedClass (hint : Option Int) : Int :=
  match hint with
  | some _ => 2
  | none => 0

/-- The expected tag of `parseField`: the hint when there is one, the
universal tag of the destination type otherwise. -/
def expectedTag (hint : Option Int) (universalTag : Int) : Int :=
  match hint with
  | some t => t
  | none => universalTag

/-- The function `asn1.Unmarshal(data, &m)` for a `Message`: a SEQUENCE of an
INTEGER, an OCTET STRING and a raw value.  Bytes after the message and
bytes after the last field are allowed. -/
def Unmarshal (data : List Nat) : Except Asn1Error Message :=
  match parseHeader none 0 16 true data with
  | .error e => .error e
  | .ok (inner, _) =>
    match parseIntField inner with
    | .error e => .error e
    | .ok (version, inner1) =>
      match parseHeader none 0 4 false inner1 with
      | .error e => .error e
      | .ok (community, inner2) =>
        match parseRawValue inner2 with
        | .error e => .error e
        | .ok (body, _) => .ok ⟨version, community, body⟩

/-- The function `asn1.UnmarshalWithParams(bytes, &pdu, params)` for a `PDU`.
The fields are stored in order, so those before a failing field are set when
the call fails.  `addr` is the address at which this call allocates the tag
hint of `params`; the fields of the struct have no hint. -/
def UnmarshalPDU (addr : Nat) (bytes : List Nat) (params : String) : PDU × Option Asn1Error :=
  let hint := parseFieldParameters params
  match parseHeader (hint.map (fun _ => addr)) (expectedClass hint) (expectedTag hint 16) true
      bytes with
  | .error e => (PDU.zero, some e)
  | .ok (inner, _) =>
    match parseInt32Field inner with
    | .error e => (PDU.zero, some e)
    | .ok (requestId, inner1) =>
      match parseIntField inner1 with
      | .error e => (⟨requestId, 0, 0, []⟩, some e)
      | .ok (errorStatus, inner2) =>
        match parseIntField inner2 with
        | .error e => (⟨requestId, errorStatus, 0, []⟩, some e)
        | .ok (errorIndex, inner3) =>
          match parseHeader none 0 16 true inner3 with
          | .error e => (⟨requestId, errorStatus, errorIndex, []⟩, some e)
          | .ok (seq, _) =>
            match parseSequenceOf seq with
            | .error e => (⟨requestId, errorStatus, errorIndex, []⟩, some e)
            | .ok vars => (⟨requestId, errorStatus, errorIndex, vars⟩, none)

/-- The branch of `parseField` for an `interface{}` destination: the hint is
not consulted; a primitive element of the universal class is stored by its
tag, anything else leaves the destination nil.  For the universal types other
than INTEGER, OCTET STRING and OBJECT IDENTIFIER the content is kept as it is
and the errors of their parsers are not modelled. -/
def parseAny (bytes : List Nat) : Except Asn1Error AnyValue :=
  match bytes with
  | [] => .error (Asn1Error.syntaxErr "sequence truncated")
  | _ :: _ =>
    match parseTagAndLength bytes with
    | .error e => .error e
    | .ok (t, rest) =>
      if t.length > rest.length then .error (Asn1Error.syntaxErr "data truncated")
      else if t.isCompound = false ∧ t.cls = 0 then
        let inner := rest.take t.length
        if t.tag = 2 then
          match parseInt64 inner with
          | .error e => .error e
          | .ok v => .ok (AnyValue.int64 v)
        else if t.tag = 4 then .ok (AnyValue.bytes inner)
        else if t.tag = 6 then
          match parseObjectIdentifier inner with
          | .error e => .error e
          | .ok o => .ok (AnyValue.oid o)
        else if t.tag ∈ [1, 3, 12, 18, 19, 20, 22, 23, 24, 30] then
          .ok (AnyValue.universal t.tag inner)
        else .ok AnyValue.nil
      else .ok AnyValue.nil

/-- The pointer that `new` returned for `val`, with its target still zero. -/
def allocated : Target → Value
  | Target.iface => Value.iface AnyValue.nil
  | Target.int32 => Value.int32 0
  | Target.int64 => Value.int64 0

/-- The function `asn1.UnmarshalWithParams(bytes, &val, params)` of
`decodeValue`.  The argument is `&val`, a pointer to the `interface{}` variable
`val`, so `parseField` takes its branch for an `interface{}` destination
whatever pointer `val` holds: the hint of `params` is not consulted, a value
that this branch recognises replaces the content of `val`, and otherwise `val`
keeps the pointer of `new`, whose target is still zero. -/
def UnmarshalValue (bytes : List Nat) (target : Target) (_params : String) :
    Except Asn1Error Value :=
  match parseAny bytes with
  | .error e => .error e
  | .ok AnyValue.nil => .ok (allocated target)
  | .ok a => .ok (Value.iface a)

end GoAsn1

/-- The model of `encoding/asn1` as an `Asn1`, for a run of `decode` in which
the tag hint of the PDU parse is allocated at the address `addr`. -/
def goAsn1At (addr : Nat) : Asn1 :=
  ⟨GoAsn1.Unmarshal, GoAsn1.UnmarshalPDU addr, GoAsn1.UnmarshalValue⟩

/-- The model of `encoding/asn1` in one run, with the tag hint at the address
`0xc000014090`. -/
def goAsn1 : Asn1 := goAsn1At 0xc000014090

/-! ## Sample packets -/

/-- First binding of the sample packets: the name 1.3.6.1.2.1.1.1.0 with the
INTEGER 5. -/
def sampleBind1 : List Nat :=
  [0x30, 0x0D, 0x06, 0x08, 0x2B, 0x06, 0x01, 0x02, 0x01, 0x01, 0x01, 0x00, 0x02, 0x01, 0x05]

/-- Second binding of the sample packets: the name 1.3.6.1.2.1.1.3.0 with the
INTEGER 7. -/
def sampleBind2 : List Nat :=
  [0x30, 0x0D, 0x06, 0x08, 0x2B, 0x06, 0x01, 0x02, 0x01, 0x01, 0x03, 0x00, 0x02, 0x01, 0x07]

/-- A binding whose value has class context-specific and tag number 1, length
zero: the name 1.3.6.1.2.1.1.3.0 with the octets `81 00`. -/
def sampleBindNoInstance : List Nat :=
  [0x30, 0x0C, 0x06, 0x08, 0x2B, 0x06, 0x01, 0x02, 0x01, 0x01, 0x03, 0x00, 0x81, 0x00]

/-- The envelope of the sample packets before the body: SEQUENCE of 55 bytes,
version 1, community "public". -/
def sampleEnvelope (len : Nat) : List Nat :=
  [0x30, len, 0x02, 0x01, 0x01, 0x04, 0x06, 0x70, 0x75, 0x62, 0x6C, 0x69, 0x63]

/-- A packet that `decode` accepts: the body has class context-specific, is
compound and has tag number `0x22` (identifier octets `BF 22`); request id 42,
error status 0, error index 0 and two INTEGER bindings. -/
def samplePacket : List Nat :=
  sampleEnvelope 0x37 ++
    [0xBF, 0x22, 0x29, 0x02, 0x01, 0x2A, 0x02, 0x01, 0x00, 0x02, 0x01, 0x00, 0x30, 0x1E] ++
    sampleBind1 ++ sampleBind2

/-- The packet `samplePacket` with the tag number `0x23` in the body's
identifier octets. -/
def samplePacketTag23 : List Nat :=
  sampleEnvelope 0x37 ++
    [0xBF, 0x23, 0x29, 0x02, 0x01, 0x2A, 0x02, 0x01, 0x00, 0x02, 0x01, 0x00, 0x30, 0x1E] ++
    sampleBind1 ++ sampleBind2

/-- The packet `samplePacket` with the second binding replaced by
`sampleBindNoInstance`. -/
def samplePacketNoInstance : List Nat :=
  sampleEnvelope 0x36 ++
    [0xBF, 0x22, 0x28, 0x02, 0x01, 0x2A, 0x02, 0x01, 0x00, 0x02, 0x01, 0x00, 0x30, 0x1D] ++
    sampleBind1 ++ sampleBindNoInstance

/-- A packet with an accepted body tag whose body is not a PDU: the request id
is an OCTET STRING. -/
def samplePacketBadPdu : List Nat :=
  sampleEnvelope 0x11 ++ [0xBF, 0x22, 0x03, 0x04, 0x01, 0x00]


/-- A packet like `samplePacket` with one binding: the name 1.3.6.1.2.1.1.3.0
with the encoded value `value`. -/
def samplePacketOneBinding (value : List Nat) : List Nat :=
  sampleEnvelope (37 + value.length) ++
    [0xBF, 0x22, 23 + value.length, 0x02, 0x01, 0x2A, 0x02, 0x01, 0x00, 0x02, 0x01, 0x00,
      0x30, 12 + value.length,
      0x30, 10 + value.length, 0x06, 0x08, 0x2B, 0x06, 0x01, 0x02, 0x01, 0x01, 0x03, 0x00] ++
    value

/-- A packet whose body has the accepted tag number `0x22` and is primitive
(identifier octets `9F 22`), with the content `02 01 2A`. -/
def samplePacketPrimitiveBody : List Nat :=
  sampleEnvelope 0x11 ++ [0x9F, 0x22, 0x03, 0x02, 0x01, 0x2A]

/-- Whether an outcome is an error of the default branch of `decodeValue`:
the format "Unable to decode %x - not implemented" with one byte operand. -/
def isNotImplemented : Option Error → Bool
  | some (Error.errorf "Unable to decode %x - not implemented" [Arg.byte _]) => true
  | _ => false

/-! ## The tag registry -/

/-- Modelled from the spec: the semantic kinds of the Tag Registry (spec
sections 2 and 4.1).  The file `decode.go` declares the fourteen constants of
lines 14-29 and no type of kinds. -/
inductive Kind where
  | noSuchObject | noSuchInstance | integer | bitString | octetString | null
  | objectIdentifier | counter32 | gauge32 | timeTicks | opaque_ | nsapAddress
  | counter64 | uinteger32 | unsupported
deriving DecidableEq, Repr

/-- The constant block of lines 14-29 as a table: each constant with the kind
its name documents. -/
def registry : List (Asn1BER × Kind) :=
  [(NoSuchObject, Kind.noSuchObject), (NoSuchInstance, Kind.noSuchInstance),
   (Integer, Kind.integer), (BitString, Kind.bitString), (OctetString, Kind.octetString),
   (Null, Kind.null), (ObjectIdentifier, Kind.objectIdentifier),
   (Counter32, Kind.counter32), (Gauge32, Kind.gauge32), (TimeTicks, Kind.timeTicks),
   (Opaque, Kind.opaque_), (NsapAddress, Kind.nsapAddress), (Counter64, Kind.counter64),
   (Uinteger32, Kind.uinteger32)]

/-- The fourteen tag bytes of the constant block. -/
def registryTags : List Asn1BER := registry.map Prod.fst

/-- Modelled from the spec: the operation `classify(tagByte) -> Kind | Unsupported`
of spec section 4.1, a lookup in the constant block.  The file `decode.go` has
no such function; its only dispatch on tags is the `switch` of `decodeValue`. -/
def classify (b : Asn1BER) : Kind :=
  match registry.lookup b with
  | some k => k
  | none => Kind.unsupported

/-! ## Lemmas on `decodeValue` and on the loop -/

/-- When `decodeValue` returns no error, `*retVal` carries the name it was given. -/
theorem decodeValue_name_of_ok (lib : Asn1) (m : Message) (name : List Int)
    (data : RawValue) (rv : Variable)
    (h : (decodeValue lib m name data rv).err = none) :
    (decodeValue lib m name data rv).retVal.Name = name := by
  unfold decodeValue at h ⊢
  simp only at h ⊢
  split_ifs at h ⊢ <;> split at h <;> simp_all

/-- The error of `decodeValue` does not depend on what `*retVal` held. -/
theorem decodeValue_err_indep (lib : Asn1) (m : Message) (name : List Int)
    (data : RawValue) (rv rv2 : Variable) :
    (decodeValue lib m name data rv).err = (decodeValue lib m name data rv2).err := by
  unfold decodeValue
  simp only
  split_ifs <;> first
    | rfl
    | (split <;> rfl)

/-- Invariant of the loop of lines 91-97 when it ends without error: the slice
keeps its length, the entries below `c` are untouched, and entry `c + j` has
the name of the `j`-th binding. -/
theorem decodeVars_ok (lib : Asn1) (m : Message) :
    ∀ (vbs : List VarBind) (c : Nat) (vars out : List Variable),
      decodeVars lib m vbs c vars = (none, out) → c + vbs.length ≤ vars.length →
      out.length = vars.length ∧
      (∀ i, i < c → out[i]? = vars[i]?) ∧
      (∀ j v, vbs[j]? = some v → ∃ x, out[c + j]? = some x ∧ x.Name = v.Name) := by
  intro vbs
  induction vbs with
  | nil =>
    intro c vars out h _
    simp only [decodeVars, Prod.mk.injEq, true_and] at h
    subst h
    simp
  | cons v rest ih =>
    intro c vars out h hlen
    simp only [List.length_cons] at hlen
    simp only [decodeVars] at h
    split at h
    · simp at h
    · rename_i herr
      have hname := decodeValue_name_of_ok lib m v.Name v.Value _ herr
      obtain ⟨h1, h2, h3⟩ := ih (c + 1) _ out h (by simp only [List.length_set]; omega)
      simp only [List.length_set] at h1
      refine ⟨h1, ?_, ?_⟩
      · intro i hi
        rw [h2 i (by omega), List.getElem?_set_ne (by omega)]
      · intro j w hj
        cases j with
        | zero =>
          simp only [List.getElem?_cons_zero, Option.some.injEq] at hj
          subst hj
          refine ⟨_, ?_, hname⟩
          rw [Nat.add_zero, h2 c (by omega), List.getElem?_set_eq_of_lt _ (by omega)]
        | succ k =>
          simp only [List.getElem?_cons_succ] at hj
          obtain ⟨x, hx, hxn⟩ := h3 k w hj
          exact ⟨x, by rw [← hx]; congr 1; omega, hxn⟩

/-- The loop returns the error of the first binding on which `decodeValue`
fails. -/
theorem decodeVars_first_error (lib : Asn1) (m : Message) (v : VarBind) (post : List VarBind)
    (e : Error) (hv : (decodeValue lib m v.Name v.Value Variable.zero).err = some e) :
    ∀ (pre : List VarBind) (c : Nat) (vars : List Variable),
      (∀ u ∈ pre, (decodeValue lib m u.Name u.Value Variable.zero).err = none) →
      (decodeVars lib m (pre ++ v :: post) c vars).1 = some e := by
  intro pre
  induction pre with
  | nil =>
    intro c vars _
    have h := decodeValue_err_indep lib m v.Name v.Value (vars.getD c Variable.zero) Variable.zero
    rw [hv] at h
    simp only [List.nil_append, decodeVars, h]
  | cons u pre ih =>
    intro c vars hpre
    have hu := hpre u (List.mem_cons_self _ _)
    have h := decodeValue_err_indep lib m u.Name u.Value (vars.getD c Variable.zero) Variable.zero
    rw [hu] at h
    simp only [List.cons_append, decodeVars, h]
    exact ih _ _ (fun w hw => hpre w (List.mem_cons_of_mem _ hw))

/-! ## The claims on `decode` -/

/-- The response that `decode` builds before line 99: when `decode` returns no
error, `resp` has as many Variables as the parsed PDU has VarBinds, and its
i-th Variable carries the Name of the i-th VarBind. -/
theorem decode_keeps_bindings (lib : Asn1) (data : List Nat) (caller : PDUResponse)
    (h : (decode lib data caller).err = none) :
    ∃ m pdu resp, lib.Unmarshal data = .ok m ∧
      lib.UnmarshalPDU m.Data.FullBytes (sprintTag m.Data.Tag) = (pdu, none) ∧
      (decode lib data caller).resp = some resp ∧
      resp.VarBindList.length = pdu.VarBindList.length ∧
      ∀ (i : Nat) (v : VarBind), pdu.VarBindList[i]? = some v →
        ∃ x : Variable, resp.VarBindList[i]? = some x ∧ x.Name = v.Name := by
  unfold decode at h ⊢
  cases hm : lib.Unmarshal data with
  | error e => simp [hm] at h
  | ok m =>
    simp only [hm] at h ⊢
    by_cases ht : m.Data.Tag = 0x20 ∨ m.Data.Tag = 0x21 ∨ m.Data.Tag = 0x22
    · simp only [ht, if_true] at h ⊢
      rcases hp : lib.UnmarshalPDU m.Data.FullBytes (sprintTag m.Data.Tag) with ⟨pdu, _ | e⟩
      · simp only [hp] at h ⊢
        rcases hvars : decodeVars lib m pdu.VarBindList 0
          (List.replicate pdu.VarBindList.length Variable.zero) with ⟨_ | e, vars⟩
        · obtain ⟨h1, _, h3⟩ := decodeVars_ok lib m pdu.VarBindList 0 _ vars hvars (by simp)
          refine ⟨m, pdu, _, rfl, hp, rfl, ?_, ?_⟩
          · simpa using h1
          · intro i v hv
            simpa using h3 i v hv
        · simp [hvars] at h
      · simp [hp] at h
    · simp [ht] at h

/-- C2: when the envelope and the PDU parse and `decodeValue` fails on some
VarBind, `decode` returns the error of the first failing VarBind in list
order; it assigns no response and leaves the caller's `PDUResponse` as it
was. -/
theorem decode_first_failing_binding (lib : Asn1) (data : List Nat) (caller : PDUResponse)
    (m : Message) (pdu : PDU) (pre : List VarBind) (v : VarBind) (post : List VarBind)
    (e : Error)
    (hm : lib.Unmarshal data = .ok m)
    (ht : m.Data.Tag = 0x20 ∨ m.Data.Tag = 0x21 ∨ m.Data.Tag = 0x22)
    (hp : lib.UnmarshalPDU m.Data.FullBytes (sprintTag m.Data.Tag) = (pdu, none))
    (hl : pdu.VarBindList = pre ++ v :: post)
    (hpre : ∀ u ∈ pre, (decodeValue lib m u.Name u.Value Variable.zero).err = none)
    (hv : (decodeValue lib m v.Name v.Value Variable.zero).err = some e) :
    decode lib data caller = ⟨some e, none, caller⟩ := by
  have hloop := decodeVars_first_error lib m v post e hv pre 0
    (List.replicate pdu.VarBindList.length Variable.zero) hpre
  rw [← hl] at hloop
  unfold decode
  simp only [hm, ht, if_true, hp]
  split
  · rename_i e2 vars heq
    rw [heq] at hloop
    simp only [Option.some.injEq] at hloop
    rw [hloop]
  · rename_i vars heq
    rw [heq] at hloop
    simp at hloop

/-- Witness of C2 on `samplePacketNoInstance`: the first binding decodes, the
second one has tag number 1. -/
theorem decode_first_failing_binding_witness :
    decode goAsn1 samplePacketNoInstance PDUResponse.zero =
      ⟨some (Error.errorf "No such instance" []), none, PDUResponse.zero⟩ :=
  decode_first_failing_binding goAsn1 samplePacketNoInstance PDUResponse.zero
    ⟨1, [0x70, 0x75, 0x62, 0x6C, 0x69, 0x63],
      ⟨2, 0x22, true, samplePacketNoInstance.drop 16, samplePacketNoInstance.drop 13⟩⟩
    ⟨42, 0, 0,
      [⟨[1, 3, 6, 1, 2, 1, 1, 1, 0], ⟨0, 2, false, [5], [2, 1, 5]⟩⟩,
       ⟨[1, 3, 6, 1, 2, 1, 1, 3, 0], ⟨2, 1, false, [], [0x81, 0]⟩⟩]⟩
    [⟨[1, 3, 6, 1, 2, 1, 1, 1, 0], ⟨0, 2, false, [5], [2, 1, 5]⟩⟩]
    ⟨[1, 3, 6, 1, 2, 1, 1, 3, 0], ⟨2, 1, false, [], [0x81, 0]⟩⟩
    []
    (Error.errorf "No such instance" [])
    (by decide) (by decide) (by decide) (by decide) (by decide) (by decide)

/-- C3 at `samplePacket`: `decode` succeeds and builds a response with request
id 42 and two Variables, and the caller's `PDUResponse` is what it was before
the call, here the zero value with request id 0 and no Variables. -/
theorem decode_caller_response_unchanged :
    (decode goAsn1 samplePacket PDUResponse.zero).err = none ∧
    (decode goAsn1 samplePacket PDUResponse.zero).resp =
      some ⟨42, 0, 0,
        [⟨[1, 3, 6, 1, 2, 1, 1, 1, 0], 2, Value.iface AnyValue.nil⟩,
         ⟨[1, 3, 6, 1, 2, 1, 1, 3, 0], 2, Value.iface AnyValue.nil⟩]⟩ ∧
    (decode goAsn1 samplePacket PDUResponse.zero).caller = ⟨0, 0, 0, []⟩ := by
  decide

/-- C4: once the envelope has parsed, the outcome of `decode` depends on what
the PDU parser returns exactly when the tag of the envelope's data field is
0x20, 0x21 or 0x22; for any other tag `decode` returns the error
"Unable to decode type" with that tag, assigns no response and leaves the
caller's `PDUResponse` as it was. -/
theorem decode_parses_pdu_iff_tag (lib : Asn1) (data : List Nat) (caller : PDUResponse)
    (m : Message) (hm : lib.Unmarshal data = .ok m) :
    ((m.Data.Tag = 0x20 ∨ m.Data.Tag = 0x21 ∨ m.Data.Tag = 0x22) ↔
      ∃ f g, decode ⟨lib.Unmarshal, f, lib.UnmarshalValue⟩ data caller ≠
        decode ⟨lib.Unmarshal, g, lib.UnmarshalValue⟩ data caller) ∧
    (¬ (m.Data.Tag = 0x20 ∨ m.Data.Tag = 0x21 ∨ m.Data.Tag = 0x22) →
      decode lib data caller =
        ⟨some (Error.errorf "Unable to decode type: %#v\n" [Arg.int m.Data.Tag]),
          none, caller⟩) := by
  refine ⟨⟨?_, ?_⟩, ?_⟩
  · intro ht
    refine ⟨fun _ _ => (PDU.zero, some (Asn1Error.other "a")),
      fun _ _ => (PDU.zero, some (Asn1Error.other "b")), ?_⟩
    unfold decode
    simp only [hm, ht, if_true]
    intro h
    simp at h
  · rintro ⟨f, g, hfg⟩
    by_contra ht
    apply hfg
    unfold decode
    simp only [hm, ht, if_false]
  · intro ht
    unfold decode
    simp only [hm, ht, if_false]

/-- Witness of C4 on `samplePacketTag23`, whose data field has tag 0x23. -/
theorem decode_parses_pdu_iff_tag_witness :
    decode goAsn1 samplePacketTag23 PDUResponse.zero =
      ⟨some (Error.errorf "Unable to decode type: %#v\n" [Arg.int 0x23]),
        none, PDUResponse.zero⟩ :=
  (decode_parses_pdu_iff_tag goAsn1 samplePacketTag23 PDUResponse.zero
    ⟨1, [0x70, 0x75, 0x62, 0x6C, 0x69, 0x63],
      ⟨2, 0x23, true, samplePacketTag23.drop 16, samplePacketTag23.drop 13⟩⟩
    (by decide)).2 (by decide)

/-- C5: when parsing the outer Message fails, `decode` returns that error at
once: it assigns no response, leaves the caller's `PDUResponse` as it was, and
the outcome is the same whatever the PDU parser and the value parser would
do. -/
theorem decode_envelope_error (lib : Asn1) (data : List Nat) (caller : PDUResponse)
    (e : Asn1Error) (h : lib.Unmarshal data = .error e) :
    decode lib data caller = ⟨some (Error.asn1 e), none, caller⟩ ∧
    ∀ f g, decode ⟨lib.Unmarshal, f, g⟩ data caller = ⟨some (Error.asn1 e), none, caller⟩ := by
  constructor
  · unfold decode
    simp only [h]
  · intro f g
    unfold decode
    simp only [h]

/-- Witness of C5: `samplePacket` without its last byte. -/
theorem decode_envelope_error_witness :
    goAsn1.Unmarshal samplePacket.dropLast = .error (Asn1Error.syntaxErr "data truncated") ∧
    decode goAsn1 samplePacket.dropLast PDUResponse.zero =
      ⟨some (Error.asn1 (Asn1Error.syntaxErr "data truncated")), none, PDUResponse.zero⟩ :=
  ⟨by decide,
    (decode_envelope_error goAsn1 samplePacket.dropLast PDUResponse.zero
      (Asn1Error.syntaxErr "data truncated") (by decide)).1⟩

/-- C6: when the envelope parses with an accepted tag and the body does not
parse as a PDU, `decode` returns the error "Error decoding pdu" whose operands
are the raw body bytes `m.Data.FullBytes`, the PDU as far as it was filled and
the parser's error; it assigns no response and leaves the caller's
`PDUResponse` as it was. -/
theorem decode_pdu_error (lib : Asn1) (data : List Nat) (caller : PDUResponse)
    (m : Message) (pdu : PDU) (e : Asn1Error)
    (hm : lib.Unmarshal data = .ok m)
    (ht : m.Data.Tag = 0x20 ∨ m.Data.Tag = 0x21 ∨ m.Data.Tag = 0x22)
    (hp : lib.UnmarshalPDU m.Data.FullBytes (sprintTag m.Data.Tag) = (pdu, some e)) :
    decode lib data caller =
      ⟨some (Error.errorf "Error decoding pdu: %#v, %#v, %s"
        [Arg.bytes m.Data.FullBytes, Arg.pdu pdu, Arg.cause e]), none, caller⟩ ∧
    ∀ g, decode ⟨lib.Unmarshal, lib.UnmarshalPDU, g⟩ data caller = decode lib data caller := by
  constructor
  · unfold decode
    simp only [hm, ht, if_true, hp]
  · intro g
    unfold decode
    simp only [hm, ht, if_true, hp]

/-- Witness of C6 on `samplePacketBadPdu`. -/
theorem decode_pdu_error_witness :
    decode goAsn1 samplePacketBadPdu PDUResponse.zero =
      ⟨some (Error.errorf "Error decoding pdu: %#v, %#v, %s"
        [Arg.bytes [0xBF, 0x22, 0x03, 0x04, 0x01, 0x00], Arg.pdu PDU.zero,
          Arg.cause (Asn1Error.structural "tags don't match")]), none, PDUResponse.zero⟩ :=
  (decode_pdu_error goAsn1 samplePacketBadPdu PDUResponse.zero
    ⟨1, [0x70, 0x75, 0x62, 0x6C, 0x69, 0x63],
      ⟨2, 0x22, true, [0x04, 0x01, 0x00], [0xBF, 0x22, 0x03, 0x04, 0x01, 0x00]⟩⟩
    PDU.zero (Asn1Error.structural "tags don't match")
    (by decide) (by decide) (by decide)).1

/-! ## The claims on `decodeValue` -/

/-- C7: a raw value whose tag is NoSuchInstance (0x01) makes `decodeValue`
return the error "No such instance", one whose tag is NoSuchObject (0x00) the
error "No such object"; `*retVal` is left as it was in both cases.  The two
errors differ, and a raw value that reaches the default branch gets an error
that is neither of them. -/
theorem decodeValue_sentinels (lib : Asn1) (m : Message) (name : List Int)
    (data : RawValue) (retVal : Variable) :
    (toAsn1BER data.Tag = NoSuchInstance →
      decodeValue lib m name data retVal =
        ⟨some (Error.errorf "No such instance" []), retVal⟩) ∧
    (toAsn1BER data.Tag = NoSuchObject →
      decodeValue lib m name data retVal =
        ⟨some (Error.errorf "No such object" []), retVal⟩) ∧
    Error.errorf "No such instance" [] ≠ Error.errorf "No such object" [] ∧
    (toAsn1BER data.Tag ∉ [Integer, OctetString, Counter32, TimeTicks, Gauge32, Counter64,
        NoSuchInstance, NoSuchObject] →
      (decodeValue lib m name data retVal).err ≠ none ∧
      (decodeValue lib m name data retVal).err ≠ some (Error.errorf "No such instance" []) ∧
      (decodeValue lib m name data retVal).err ≠ some (Error.errorf "No such object" []) ∧
      (decodeValue lib m name data retVal).retVal = retVal) := by
  refine ⟨?_, ?_, by decide, ?_⟩
  · intro h
    unfold decodeValue
    simp only [h]
    simp [NoSuchInstance, NoSuchObject, Integer, OctetString, Counter32, TimeTicks, Gauge32,
      Counter64]
  · intro h
    unfold decodeValue
    simp only [h]
    simp [NoSuchInstance, NoSuchObject, Integer, OctetString, Counter32, TimeTicks, Gauge32,
      Counter64]
  · intro h
    simp only [List.mem_cons, List.mem_singleton, List.not_mem_nil, or_false, not_or] at h
    obtain ⟨h1, h2, h3, h4, h5, h6, h7, h8⟩ := h
    unfold decodeValue
    simp only [h1, h2, h3, h4, h5, h6, h7, h8, or_self, if_false]
    cases hb : firstByte data with
    | error e =>
      unfold firstByte at hb
      split at hb
      · simp only [Except.error.injEq] at hb
        subst hb
        simp
      · simp at hb
    | ok b => simp

/-- Witness of C7: the octets `81 00` (tag number 1), the octets `80 00` (tag
number 0) and the octets `05 00` (tag number 5, the default branch). -/
theorem decodeValue_sentinels_witness :
    decodeValue goAsn1 ⟨1, [], RawValue.zero⟩ [1, 3, 6, 1, 2, 1, 1, 3, 0]
        ⟨2, 1, false, [], [0x81, 0]⟩ Variable.zero =
      ⟨some (Error.errorf "No such instance" []), Variable.zero⟩ ∧
    decodeValue goAsn1 ⟨1, [], RawValue.zero⟩ [1, 3, 6, 1, 2, 1, 1, 3, 0]
        ⟨2, 0, false, [], [0x80, 0]⟩ Variable.zero =
      ⟨some (Error.errorf "No such object" []), Variable.zero⟩ ∧
    (decodeValue goAsn1 ⟨1, [], RawValue.zero⟩ [1, 3, 6, 1, 2, 1, 1, 3, 0]
        ⟨0, 5, false, [], [0x05, 0]⟩ Variable.zero).err ≠
      some (Error.errorf "No such instance" []) :=
  ⟨(decodeValue_sentinels goAsn1 ⟨1, [], RawValue.zero⟩ [1, 3, 6, 1, 2, 1, 1, 3, 0]
      ⟨2, 1, false, [], [0x81, 0]⟩ Variable.zero).1 (by decide),
   (decodeValue_sentinels goAsn1 ⟨1, [], RawValue.zero⟩ [1, 3, 6, 1, 2, 1, 1, 3, 0]
      ⟨2, 0, false, [], [0x80, 0]⟩ Variable.zero).2.1 (by decide),
   ((decodeValue_sentinels goAsn1 ⟨1, [], RawValue.zero⟩ [1, 3, 6, 1, 2, 1, 1, 3, 0]
      ⟨0, 5, false, [], [0x05, 0]⟩ Variable.zero).2.2.2 (by decide)).2.1⟩

/-- C8 fails at two bindings with the tag NoSuchInstance and the different
names 1.3.6.1.2.1.1.1.0 and 1.3.6.1.2.1.1.3.0: `decodeValue` returns the same
error "No such instance", without operands, for both. -/
theorem decodeValue_sentinel_error_two_names :
    ([1, 3, 6, 1, 2, 1, 1, 1, 0] : List Int) ≠ [1, 3, 6, 1, 2, 1, 1, 3, 0] ∧
    (decodeValue goAsn1 ⟨1, [], RawValue.zero⟩ [1, 3, 6, 1, 2, 1, 1, 1, 0]
        ⟨2, 1, false, [], [0x81, 0]⟩ Variable.zero).err =
      (decodeValue goAsn1 ⟨1, [], RawValue.zero⟩ [1, 3, 6, 1, 2, 1, 1, 3, 0]
        ⟨2, 1, false, [], [0x81, 0]⟩ Variable.zero).err ∧
    (decodeValue goAsn1 ⟨1, [], RawValue.zero⟩ [1, 3, 6, 1, 2, 1, 1, 1, 0]
        ⟨2, 1, false, [], [0x81, 0]⟩ Variable.zero).err =
      some (Error.errorf "No such instance" []) := by
  decide

/-- C8 as amended: for a raw value whose tag is NoSuchInstance or NoSuchObject
the error of `decodeValue` is the fixed error of that sentinel, built without
operands; it is the same for every name, every message and every `*retVal`. -/
theorem decodeValue_sentinel_error_ignores_name (lib : Asn1) (m m2 : Message)
    (name name2 : List Int) (data : RawValue) (retVal retVal2 : Variable)
    (h : toAsn1BER data.Tag = NoSuchInstance ∨ toAsn1BER data.Tag = NoSuchObject) :
    (decodeValue lib m name data retVal).err = (decodeValue lib m2 name2 data retVal2).err ∧
    (decodeValue lib m name data retVal).err =
      some (Error.errorf
        (if toAsn1BER data.Tag = NoSuchInstance then "No such instance" else "No such object")
        []) := by
  rcases h with h | h <;>
  · unfold decodeValue
    simp only [h]
    simp [NoSuchInstance, NoSuchObject, Integer, OctetString, Counter32, TimeTicks, Gauge32,
      Counter64]

/-- Witness of C8 as amended, on the octets `81 00` under two names. -/
theorem decodeValue_sentinel_error_ignores_name_witness :
    (decodeValue goAsn1 ⟨1, [], RawValue.zero⟩ [1, 3, 6, 1, 2, 1, 1, 1, 0]
        ⟨2, 1, false, [], [0x81, 0]⟩ Variable.zero).err =
      (decodeValue goAsn1 ⟨1, [], RawValue.zero⟩ [1, 3, 6, 1, 2, 1, 1, 3, 0]
        ⟨2, 1, false, [], [0x81, 0]⟩ Variable.zero).err :=
  (decodeValue_sentinel_error_ignores_name goAsn1 ⟨1, [], RawValue.zero⟩ ⟨1, [], RawValue.zero⟩
    [1, 3, 6, 1, 2, 1, 1, 1, 0] [1, 3, 6, 1, 2, 1, 1, 3, 0]
    ⟨2, 1, false, [], [0x81, 0]⟩ Variable.zero Variable.zero (by decide)).1

/-! ## The default branch of `decodeValue` and the tag registry -/

/-- A raw value whose tag has no `case` and that has a first byte `b` gets the
error of the default branch with operand `b`; `*retVal` is left as it was. -/
theorem decodeValue_default (lib : Asn1) (m : Message) (name : List Int) (data : RawValue)
    (retVal : Variable) (b : Nat) (rest : List Nat)
    (ht : toAsn1BER data.Tag ∉ [Integer, OctetString, Counter32, TimeTicks, Gauge32, Counter64,
      NoSuchInstance, NoSuchObject])
    (hb : data.FullBytes = b :: rest) :
    decodeValue lib m name data retVal =
      ⟨some (Error.errorf "Unable to decode %x - not implemented" [Arg.byte b]), retVal⟩ := by
  simp only [List.mem_cons, List.mem_singleton, List.not_mem_nil, or_false, not_or] at ht
  obtain ⟨h1, h2, h3, h4, h5, h6, h7, h8⟩ := ht
  unfold decodeValue
  simp only [h1, h2, h3, h4, h5, h6, h7, h8, or_self, if_false, firstByte, hb]

set_option maxRecDepth 100000 in
/-- C13: the registry maps each of the fourteen documented bytes to the kind
documented for it, these kinds are pairwise distinct, and every other byte of
0..255 is classified as unsupported. -/
theorem classify_registry :
    classify 0x00 = Kind.noSuchObject ∧ classify 0x01 = Kind.noSuchInstance ∧
    classify 0x02 = Kind.integer ∧ classify 0x03 = Kind.bitString ∧
    classify 0x04 = Kind.octetString ∧ classify 0x05 = Kind.null ∧
    classify 0x06 = Kind.objectIdentifier ∧ classify 0x41 = Kind.counter32 ∧
    classify 0x42 = Kind.gauge32 ∧ classify 0x43 = Kind.timeTicks ∧
    classify 0x44 = Kind.opaque_ ∧ classify 0x45 = Kind.nsapAddress ∧
    classify 0x46 = Kind.counter64 ∧ classify 0x47 = Kind.uinteger32 ∧
    registryTags = [0x00, 0x01, 0x02, 0x03, 0x04, 0x05, 0x06,
      0x41, 0x42, 0x43, 0x44, 0x45, 0x46, 0x47] ∧
    (registryTags.map classify).Nodup ∧
    ∀ b, b < 256 →
      b ∉ [0x00, 0x01, 0x02, 0x03, 0x04, 0x05, 0x06, 0x41, 0x42, 0x43, 0x44, 0x45, 0x46, 0x47] →
      classify b = Kind.unsupported := by
  decide

/-- Witness of C13: the byte 0x07 is classified as unsupported. -/
theorem classify_registry_witness : classify 0x07 = Kind.unsupported :=
  classify_registry.2.2.2.2.2.2.2.2.2.2.2.2.2.2.2.2 0x07 (by decide) (by decide)

/-! ## Dispatch, the bytes that are decoded, and `ParseUint16` -/

/-- C14 at the raw values parsed from `41 01 05` and `01 01 05`, and from
`44 01 05` and `04 01 05`: the parsed tag is the tag number without the class
bits, 1 for the first pair and 4 for the second; `decodeValue` returns
"No such instance" for `41 01 05` as for `01 01 05`, and takes the OctetString
branch for `44 01 05` as for `04 01 05`. -/
theorem decodeValue_dispatch_on_tag_number :
    GoAsn1.parseRawValue [0x41, 1, 5] = .ok (⟨1, 1, false, [5], [0x41, 1, 5]⟩, []) ∧
    GoAsn1.parseRawValue [0x01, 1, 5] = .ok (⟨0, 1, false, [5], [0x01, 1, 5]⟩, []) ∧
    decodeValue goAsn1 ⟨1, [], ⟨1, 1, false, [5], [0x41, 1, 5]⟩⟩ [1, 3, 6, 1, 2, 1, 1, 1, 0]
        ⟨1, 1, false, [5], [0x41, 1, 5]⟩ Variable.zero =
      ⟨some (Error.errorf "No such instance" []), Variable.zero⟩ ∧
    decodeValue goAsn1 ⟨1, [], ⟨0, 1, false, [5], [0x01, 1, 5]⟩⟩ [1, 3, 6, 1, 2, 1, 1, 1, 0]
        ⟨0, 1, false, [5], [0x01, 1, 5]⟩ Variable.zero =
      ⟨some (Error.errorf "No such instance" []), Variable.zero⟩ ∧
    GoAsn1.parseRawValue [0x44, 1, 5] = .ok (⟨1, 4, false, [5], [0x44, 1, 5]⟩, []) ∧
    GoAsn1.parseRawValue [0x04, 1, 5] = .ok (⟨0, 4, false, [5], [0x04, 1, 5]⟩, []) ∧
    decodeValue goAsn1 ⟨1, [], ⟨1, 4, false, [5], [0x44, 1, 5]⟩⟩ [1, 3, 6, 1, 2, 1, 1, 1, 0]
        ⟨1, 4, false, [5], [0x44, 1, 5]⟩ Variable.zero =
      ⟨none, ⟨[1, 3, 6, 1, 2, 1, 1, 1, 0], OctetString, Value.iface AnyValue.nil⟩⟩ ∧
    decodeValue goAsn1 ⟨1, [], ⟨0, 4, false, [5], [0x04, 1, 5]⟩⟩ [1, 3, 6, 1, 2, 1, 1, 1, 0]
        ⟨0, 4, false, [5], [0x04, 1, 5]⟩ Variable.zero =
      ⟨none, ⟨[1, 3, 6, 1, 2, 1, 1, 1, 0], OctetString, Value.iface (AnyValue.bytes [5])⟩⟩ := by
  decide

/-- C15 at `content = [0x01, 0x02]` and `content = [0x12, 0x34]`: `ParseUint16`
returns 2 and 0x34, the second byte alone, where the big-endian values are 258
and 0x1234. -/
theorem ParseUint16_returns_second_byte :
    ParseUint16 [0x01, 0x02] = .ok 2 ∧ (2 : Int) ≠ 0x01 * 256 + 0x02 ∧
    ParseUint16 [0x12, 0x34] = .ok 0x34 ∧ (0x34 : Int) ≠ 0x12 * 256 + 0x34 := by
  decide

/-- C16 at the first binding of `samplePacket`, the INTEGER 5 (`02 01 05`):
with `m` the message of `decode`, `decodeValue` unmarshals `m.Data.FullBytes`,
the whole body of the packet, and stores a nil value; the same holds for the
OCTET STRING `04 02 61 62`.  Were the raw value's own bytes unmarshalled, the
values would be 5 and the bytes `61 62`. -/
theorem decodeValue_unmarshals_message_body :
    goAsn1.Unmarshal samplePacket =
      .ok ⟨1, [0x70, 0x75, 0x62, 0x6C, 0x69, 0x63],
        ⟨2, 0x22, true, samplePacket.drop 16, samplePacket.drop 13⟩⟩ ∧
    decodeValue goAsn1
        ⟨1, [0x70, 0x75, 0x62, 0x6C, 0x69, 0x63],
          ⟨2, 0x22, true, samplePacket.drop 16, samplePacket.drop 13⟩⟩
        [1, 3, 6, 1, 2, 1, 1, 1, 0] ⟨0, 2, false, [5], [0x02, 1, 5]⟩ Variable.zero =
      ⟨none, ⟨[1, 3, 6, 1, 2, 1, 1, 1, 0], Integer, Value.iface AnyValue.nil⟩⟩ ∧
    decodeValue goAsn1
        ⟨1, [0x70, 0x75, 0x62, 0x6C, 0x69, 0x63],
          ⟨2, 0x22, true, samplePacket.drop 16, samplePacket.drop 13⟩⟩
        [1, 3, 6, 1, 2, 1, 1, 1, 0] ⟨0, 4, false, [0x61, 0x62], [0x04, 2, 0x61, 0x62]⟩
        Variable.zero =
      ⟨none, ⟨[1, 3, 6, 1, 2, 1, 1, 1, 0], OctetString, Value.iface AnyValue.nil⟩⟩ ∧
    goAsn1.UnmarshalValue [0x02, 1, 5] Target.iface (sprintTag 2) =
      .ok (Value.iface (AnyValue.int64 5)) ∧
    goAsn1.UnmarshalValue [0x04, 2, 0x61, 0x62] Target.iface (sprintTag 4) =
      .ok (Value.iface (AnyValue.bytes [0x61, 0x62])) := by
  decide

/-- C18: `decodeValue` either returns no error and has stored the name, the
tag and the unmarshalled value in `*retVal`, or ends with an error and leaves
`*retVal` as it was. -/
theorem decodeValue_all_or_nothing (lib : Asn1) (m : Message) (name : List Int)
    (data : RawValue) (retVal : Variable) :
    ((decodeValue lib m name data retVal).err = none ∧
      ∃ target val, lib.UnmarshalValue m.Data.FullBytes target (sprintTag data.Tag) = .ok val ∧
        (decodeValue lib m name data retVal).retVal = ⟨name, toAsn1BER data.Tag, val⟩) ∨
    ((decodeValue lib m name data retVal).err ≠ none ∧
      (decodeValue lib m name data retVal).retVal = retVal) := by
  unfold decodeValue
  simp only
  split_ifs
  · cases h : lib.UnmarshalValue m.Data.FullBytes Target.iface (sprintTag data.Tag) with
    | error e => right; simp
    | ok val => left; exact ⟨rfl, Target.iface, val, h, rfl⟩
  · cases h : lib.UnmarshalValue m.Data.FullBytes Target.int32 (sprintTag data.Tag) with
    | error e => right; simp
    | ok val => left; exact ⟨rfl, Target.int32, val, h, rfl⟩
  · cases h : lib.UnmarshalValue m.Data.FullBytes Target.int64 (sprintTag data.Tag) with
    | error e => right; simp
    | ok val => left; exact ⟨rfl, Target.int64, val, h, rfl⟩
  · right; simp
  · right; simp
  · right
    cases firstByte data <;> simp

/-- C19: `ParseUint16` ends with the index panic exactly when `content` has
fewer than two bytes; with two bytes or more it returns a number, and that
number is the same for every `content` with the same first two bytes. -/
theorem ParseUint16_panics_iff_short (content : List Nat) :
    (ParseUint16 content = .error (Error.panic "index out of range") ↔ content.length < 2) ∧
    (2 ≤ content.length → ∃ n, ParseUint16 content = .ok n) ∧
    (∀ b0 b1 rest rest2, content = b0 :: b1 :: rest →
      ParseUint16 (b0 :: b1 :: rest2) = ParseUint16 content) := by
  match content with
  | [] => simp [ParseUint16]
  | [_] => simp [ParseUint16]
  | b0 :: b1 :: rest =>
    refine ⟨?_, ?_, ?_⟩
    · simp [ParseUint16]
    · intro _
      simp [ParseUint16]
    · intro c0 c1 r1 r2 h
      simp only [List.cons.injEq] at h
      obtain ⟨h0, h1, _⟩ := h
      subst h0 h1
      simp [ParseUint16]

/-- Witness of C19: one byte panics, three bytes return, and the third byte
does not matter. -/
theorem ParseUint16_panics_iff_short_witness :
    ParseUint16 [0x12] = .error (Error.panic "index out of range") ∧
    (∃ n, ParseUint16 [0x12, 0x34, 0x56] = .ok n) ∧
    ParseUint16 [0x12, 0x34, 0xFF] = ParseUint16 [0x12, 0x34, 0x56] :=
  ⟨(ParseUint16_panics_iff_short [0x12]).1.2 (by decide),
   (ParseUint16_panics_iff_short [0x12, 0x34, 0x56]).2.1 (by decide),
   (ParseUint16_panics_iff_short [0x12, 0x34, 0x56]).2.2 0x12 0x34 [0x56] [0xFF] rfl⟩

/-! ## What the caller receives, and the values with application tags -/

/-- C1 at `samplePacket`: `decode` returns no error, the parsed PDU has the two
VarBinds 1.3.6.1.2.1.1.1.0 and 1.3.6.1.2.1.1.3.0, `resp` is built with these
two names in this order, and the `PDUResponse` of the caller has no Variable
after the call. -/
theorem decode_caller_holds_no_binding :
    (decode goAsn1 samplePacket PDUResponse.zero).err = none ∧
    (goAsn1.UnmarshalPDU (samplePacket.drop 13) (sprintTag 0x22)).1.VarBindList.map VarBind.Name =
      [[1, 3, 6, 1, 2, 1, 1, 1, 0], [1, 3, 6, 1, 2, 1, 1, 3, 0]] ∧
    (decode goAsn1 samplePacket PDUResponse.zero).resp.map
        (fun r => r.VarBindList.map Variable.Name) =
      some [[1, 3, 6, 1, 2, 1, 1, 1, 0], [1, 3, 6, 1, 2, 1, 1, 3, 0]] ∧
    (decode goAsn1 samplePacket PDUResponse.zero).caller.VarBindList = [] := by
  decide

/-- C9 on packets whose one binding carries 2147483647.  With the identifier
octet 0x41 (Counter32) the parsed tag is 1 and `decode` returns
"No such instance"; with 0x42 (Gauge32) the parsed tag is 2 and the Variable
gets the type Integer and a nil value; with 0x43 (TimeTicks) the parsed tag
is 3 and `decode` returns the error of the default branch.  With the
identifier octets `9F 41`, whose tag number is 0x41, the Counter32 branch is
taken and the Variable gets the untouched `new(int32)`, the value 0. -/
theorem decode_counter32_not_decoded :
    decode goAsn1 (samplePacketOneBinding [0x41, 4, 0x7F, 0xFF, 0xFF, 0xFF]) PDUResponse.zero =
      ⟨some (Error.errorf "No such instance" []), none, PDUResponse.zero⟩ ∧
    decode goAsn1 (samplePacketOneBinding [0x42, 4, 0x7F, 0xFF, 0xFF, 0xFF]) PDUResponse.zero =
      ⟨none, some ⟨42, 0, 0, [⟨[1, 3, 6, 1, 2, 1, 1, 3, 0], Integer, Value.iface AnyValue.nil⟩]⟩,
        PDUResponse.zero⟩ ∧
    isNotImplemented (decode goAsn1 (samplePacketOneBinding [0x43, 4, 0x7F, 0xFF, 0xFF, 0xFF])
      PDUResponse.zero).err = true ∧
    (decode goAsn1 (samplePacketOneBinding [0x43, 4, 0x7F, 0xFF, 0xFF, 0xFF])
      PDUResponse.zero).resp = none ∧
    decode goAsn1 (samplePacketOneBinding [0x9F, 0x41, 4, 0x7F, 0xFF, 0xFF, 0xFF])
        PDUResponse.zero =
      ⟨none, some ⟨42, 0, 0, [⟨[1, 3, 6, 1, 2, 1, 1, 3, 0], Counter32, Value.int32 0⟩]⟩,
        PDUResponse.zero⟩ := by
  decide

/-- C10 on packets whose one binding carries a Counter64.  With the identifier
octet 0x46 and the value 5 the parsed tag is 6 and `decode` returns the error
of the default branch; with the identifier octets `9F 46`, whose tag number
is 0x46, and the value 9223372036854775807 the Counter64 branch is taken and
the Variable gets the untouched `new(int64)`, the value 0. -/
theorem decode_counter64_not_decoded :
    isNotImplemented (decode goAsn1 (samplePacketOneBinding [0x46, 1, 5])
      PDUResponse.zero).err = true ∧
    (decode goAsn1 (samplePacketOneBinding [0x46, 1, 5]) PDUResponse.zero).resp = none ∧
    decode goAsn1
        (samplePacketOneBinding [0x9F, 0x46, 8, 0x7F, 0xFF, 0xFF, 0xFF, 0xFF, 0xFF, 0xFF, 0xFF])
        PDUResponse.zero =
      ⟨none, some ⟨42, 0, 0, [⟨[1, 3, 6, 1, 2, 1, 1, 3, 0], Counter64, Value.int64 0⟩]⟩,
        PDUResponse.zero⟩ := by
  decide

/-- C11 at the raw values parsed from `81 00` and `82 01 05`, whose identifier
octets 0x81 and 0x82 are outside the registry: the parsed tags are 1 and 2,
`decodeValue` returns "No such instance", an error without operand, for the
first, and for the second it takes the Integer branch and fills the
Variable. -/
theorem decodeValue_unregistered_identifier_octets :
    (0x81 : Nat) ∉ registryTags ∧ (0x82 : Nat) ∉ registryTags ∧
    GoAsn1.parseRawValue [0x81, 0] = .ok (⟨2, 1, false, [], [0x81, 0]⟩, []) ∧
    decodeValue goAsn1 ⟨1, [], ⟨2, 1, false, [], [0x81, 0]⟩⟩ [1, 3, 6, 1, 2, 1, 1, 3, 0]
        ⟨2, 1, false, [], [0x81, 0]⟩ Variable.zero =
      ⟨some (Error.errorf "No such instance" []), Variable.zero⟩ ∧
    GoAsn1.parseRawValue [0x82, 1, 5] = .ok (⟨2, 2, false, [5], [0x82, 1, 5]⟩, []) ∧
    decodeValue goAsn1 ⟨1, [], ⟨2, 2, false, [5], [0x82, 1, 5]⟩⟩ [1, 3, 6, 1, 2, 1, 1, 3, 0]
        ⟨2, 2, false, [5], [0x82, 1, 5]⟩ Variable.zero =
      ⟨none, ⟨[1, 3, 6, 1, 2, 1, 1, 3, 0], Integer, Value.iface AnyValue.nil⟩⟩ := by
  decide

/-- C12 fails at the raw value parsed from `05 00`, a Null: `decodeValue`
leaves `*retVal` as it was and returns the error of its default branch, the
one it returns for `07 00`, whose identifier octet is outside the registry;
the two errors have the same format and differ in the printed byte only. -/
theorem decodeValue_null_same_error_kind_as_unknown :
    classify 0x05 = Kind.null ∧ classify 0x07 = Kind.unsupported ∧
    GoAsn1.parseRawValue [0x05, 0] = .ok (⟨0, 5, false, [], [0x05, 0]⟩, []) ∧
    GoAsn1.parseRawValue [0x07, 0] = .ok (⟨0, 7, false, [], [0x07, 0]⟩, []) ∧
    decodeValue goAsn1 ⟨1, [], ⟨0, 5, false, [], [0x05, 0]⟩⟩ [1, 3, 6, 1, 2, 1, 1, 3, 0]
        ⟨0, 5, false, [], [0x05, 0]⟩ Variable.zero =
      ⟨some (Error.errorf "Unable to decode %x - not implemented" [Arg.byte 0x05]),
        Variable.zero⟩ ∧
    decodeValue goAsn1 ⟨1, [], ⟨0, 7, false, [], [0x07, 0]⟩⟩ [1, 3, 6, 1, 2, 1, 1, 3, 0]
        ⟨0, 7, false, [], [0x07, 0]⟩ Variable.zero =
      ⟨some (Error.errorf "Unable to decode %x - not implemented" [Arg.byte 0x07]),
        Variable.zero⟩ := by
  decide

/-- C17 fails at `samplePacketPrimitiveBody`: the body has the accepted tag
number and is primitive, the PDU parse rejects it with the mismatch error
whose text prints the address of the tag hint, line 78 copies that text, and
two runs with the hint at the addresses 0xc000014090 and 0xc0000140a8 return
different errors. -/
theorem decode_two_runs_differ :
    (decode (goAsn1At 0xc000014090) samplePacketPrimitiveBody PDUResponse.zero).err =
      some (Error.errorf "Error decoding pdu: %#v, %#v, %s"
        [Arg.bytes [0x9F, 0x22, 0x03, 0x02, 0x01, 0x2A], Arg.pdu PDU.zero,
          Arg.cause (Asn1Error.structural (GoAsn1.mismatchText (some 0xc000014090)))]) ∧
    (decode (goAsn1At 0xc0000140a8) samplePacketPrimitiveBody PDUResponse.zero).err =
      some (Error.errorf "Error decoding pdu: %#v, %#v, %s"
        [Arg.bytes [0x9F, 0x22, 0x03, 0x02, 0x01, 0x2A], Arg.pdu PDU.zero,
          Arg.cause (Asn1Error.structural (GoAsn1.mismatchText (some 0xc0000140a8)))]) ∧
    (decode (goAsn1At 0xc000014090) samplePacketPrimitiveBody PDUResponse.zero).err ≠
      (decode (goAsn1At 0xc0000140a8) samplePacketPrimitiveBody PDUResponse.zero).err := by
  decide

/-! ## Raw values as parsed from the wire, and two runs of `decode` -/

/-- The long-form length loop returns a suffix of its input. -/
theorem parseLength_rest (n : Nat) :
    ∀ (acc : Nat) (bytes : List Nat) (len : Nat) (rest : List Nat),
      GoAsn1.parseLength n acc bytes = .ok (len, rest) → rest.length ≤ bytes.length := by
  induction n with
  | zero =>
    intro acc bytes len rest h
    simp only [GoAsn1.parseLength, Except.ok.injEq, Prod.mk.injEq] at h
    rw [h.2]
  | succ k ih =>
    intro acc bytes len rest h
    cases bytes with
    | nil => simp [GoAsn1.parseLength] at h
    | cons b bs =>
      simp only [GoAsn1.parseLength] at h
      split_ifs at h
      have := ih _ _ _ _ h
      simp only [List.length_cons]
      omega

/-- The length octets keep the tag and consume at least one byte. -/
theorem parseLengthOctets_ok (cls tag : Nat) (ic : Bool) (bytes : List Nat)
    (t : GoAsn1.TagAndLength) (rest : List Nat)
    (h : GoAsn1.parseLengthOctets cls tag ic bytes = .ok (t, rest)) :
    t.tag = tag ∧ rest.length < bytes.length := by
  cases bytes with
  | nil => simp [GoAsn1.parseLengthOctets] at h
  | cons l bs =>
    simp only [GoAsn1.parseLengthOctets] at h
    split_ifs at h
    · simp only [Except.ok.injEq, Prod.mk.injEq] at h
      obtain ⟨h1, h2⟩ := h
      subst h1 h2
      simp
    · cases hp : GoAsn1.parseLength (l % 128) 0 bs with
      | error e => simp [hp] at h
      | ok r =>
        obtain ⟨len, rest1⟩ := r
        simp only [hp] at h
        split_ifs at h
        simp only [Except.ok.injEq, Prod.mk.injEq] at h
        obtain ⟨h1, h2⟩ := h
        subst h1 h2
        have := parseLength_rest _ _ _ _ _ hp
        simp only [List.length_cons]
        exact ⟨trivial, by omega⟩

/-- A raw value parsed from bytes whose identifier octet `b` has a tag number
below 31 has that tag number, `b % 32`, as its `Tag`, and `b` as the first of
its `FullBytes`. -/
theorem parseRawValue_low_tag (b : Nat) (bytes : List Nat) (data : RawValue) (rest : List Nat)
    (hb : b % 32 ≠ 31)
    (h : GoAsn1.parseRawValue (b :: bytes) = .ok (data, rest)) :
    data.Tag = ((b % 32 : Nat) : Int) ∧ ∃ tl, data.FullBytes = b :: tl := by
  simp only [GoAsn1.parseRawValue, GoAsn1.parseTagAndLength, hb, if_false] at h
  cases hp : GoAsn1.parseLengthOctets (b / 64) (b % 32) (decide (b / 32 % 2 = 1)) bytes with
  | error e => simp [hp] at h
  | ok r =>
    obtain ⟨t, rest1⟩ := r
    obtain ⟨ht, hlen⟩ := parseLengthOctets_ok _ _ _ _ _ _ hp
    simp only [hp] at h
    split_ifs at h
    simp only [Except.ok.injEq, Prod.mk.injEq] at h
    obtain ⟨h1, _⟩ := h
    subst h1
    refine ⟨by simp [ht], ?_⟩
    simp only [List.length_cons]
    obtain ⟨k, hk⟩ : ∃ k, bytes.length + 1 - rest1.length + t.length = k + 1 :=
      ⟨bytes.length - rest1.length + t.length, by omega⟩
    rw [hk, List.take_succ_cons]
    exact ⟨_, rfl⟩

/-- C12 as amended: for a raw value parsed from bytes whose identifier octet is
Null, ObjectIdentifier, BitString, NsapAddress or Uinteger32, `decodeValue`
leaves `*retVal` as it was and returns the error of its default branch,
"Unable to decode %x - not implemented" with one byte operand; a raw value
whose identifier octet is one of 0x07..0x1E, outside the registry, gets an
error of the same format. -/
theorem decodeValue_registry_octet_without_rule (lib : Asn1) (m : Message) (name : List Int)
    (retVal : Variable) (b : Nat) (bytes : List Nat) (data : RawValue) (rest : List Nat)
    (hb : b ∈ [Null, ObjectIdentifier, BitString, NsapAddress, Uinteger32])
    (hp : GoAsn1.parseRawValue (b :: bytes) = .ok (data, rest)) :
    isNotImplemented (decodeValue lib m name data retVal).err = true ∧
    (decodeValue lib m name data retVal).retVal = retVal ∧
    ∀ (b2 : Nat) (bytes2 : List Nat) (data2 : RawValue) (rest2 : List Nat),
      7 ≤ b2 → b2 ≤ 0x1E → GoAsn1.parseRawValue (b2 :: bytes2) = .ok (data2, rest2) →
      b2 ∉ registryTags ∧ isNotImplemented (decodeValue lib m name data2 retVal).err = true ∧
      (decodeValue lib m name data2 retVal).retVal = retVal := by
  have key : ∀ (c : Nat) (bs : List Nat) (d : RawValue) (r : List Nat),
      c % 32 ≠ 31 →
      c % 32 ∉ [Integer, OctetString, Counter32, TimeTicks, Gauge32, Counter64,
        NoSuchInstance, NoSuchObject] →
      GoAsn1.parseRawValue (c :: bs) = .ok (d, r) →
      isNotImplemented (decodeValue lib m name d retVal).err = true ∧
      (decodeValue lib m name d retVal).retVal = retVal := by
    intro c bs d r h31 hc hpar
    obtain ⟨htag, tl, hfull⟩ := parseRawValue_low_tag c bs d r h31 hpar
    have hber : toAsn1BER d.Tag = c % 32 := by
      rw [htag]
      unfold toAsn1BER
      have hlt : ((c % 32 : Nat) : Int) % 256 = ((c % 32 : Nat) : Int) :=
        Int.emod_eq_of_lt (by omega) (by omega)
      rw [hlt]
      exact Int.toNat_ofNat _
    rw [decodeValue_default lib m name d retVal c tl (by rw [hber]; exact hc) hfull]
    exact ⟨rfl, rfl⟩
  refine ⟨?_, ?_, ?_⟩
  · simp only [List.mem_cons, List.mem_singleton, List.not_mem_nil, or_false] at hb
    rcases hb with h | h | h | h | h <;> subst h <;>
      exact (key _ bytes data rest (by decide) (by decide) hp).1
  · simp only [List.mem_cons, List.mem_singleton, List.not_mem_nil, or_false] at hb
    rcases hb with h | h | h | h | h <;> subst h <;>
      exact (key _ bytes data rest (by decide) (by decide) hp).2
  · intro b2 bytes2 data2 rest2 h7 h30 hp2
    have hmod : b2 % 32 = b2 := Nat.mod_eq_of_lt (by omega)
    have hnot : b2 % 32 ∉ [Integer, OctetString, Counter32, TimeTicks, Gauge32, Counter64,
        NoSuchInstance, NoSuchObject] := by
      rw [hmod]
      simp only [List.mem_cons, List.mem_singleton, List.not_mem_nil, or_false, Integer,
        OctetString, Counter32, TimeTicks, Gauge32, Counter64, NoSuchInstance, NoSuchObject]
      omega
    have hreg : b2 ∉ registryTags := by
      have : registryTags = [0x00, 0x01, 0x02, 0x03, 0x04, 0x05, 0x06,
          0x41, 0x42, 0x43, 0x44, 0x45, 0x46, 0x47] := by decide
      rw [this]
      simp only [List.mem_cons, List.mem_singleton, List.not_mem_nil, or_false]
      omega
    exact ⟨hreg, key b2 bytes2 data2 rest2 (by omega) hnot hp2⟩

/-- Witness of C12 as amended: the raw value parsed from `05 00`, a Null, and
the raw value parsed from `07 00`. -/
theorem decodeValue_registry_octet_without_rule_witness :
    isNotImplemented (decodeValue goAsn1 ⟨1, [], RawValue.zero⟩ [1, 3, 6, 1, 2, 1, 1, 3, 0]
      ⟨0, 5, false, [], [0x05, 0]⟩ Variable.zero).err = true ∧
    isNotImplemented (decodeValue goAsn1 ⟨1, [], RawValue.zero⟩ [1, 3, 6, 1, 2, 1, 1, 3, 0]
      ⟨0, 7, false, [], [0x07, 0]⟩ Variable.zero).err = true :=
  ⟨(decodeValue_registry_octet_without_rule goAsn1 ⟨1, [], RawValue.zero⟩
      [1, 3, 6, 1, 2, 1, 1, 3, 0] Variable.zero 0x05 [0] ⟨0, 5, false, [], [0x05, 0]⟩ []
      (by decide) (by decide)).1,
   ((decodeValue_registry_octet_without_rule goAsn1 ⟨1, [], RawValue.zero⟩
      [1, 3, 6, 1, 2, 1, 1, 3, 0] Variable.zero 0x05 [0] ⟨0, 5, false, [], [0x05, 0]⟩ []
      (by decide) (by decide)).2.2 0x07 [0] ⟨0, 7, false, [], [0x07, 0]⟩ []
      (by decide) (by decide) (by decide)).2.1⟩

/-- Two header checks that differ in the address of the hint only agree, or
both fail with the mismatch error and its address. -/
theorem parseHeader_addr (o1 o2 : Option Nat) (expClass expTag : Int) (expCompound : Bool)
    (bytes : List Nat) :
    GoAsn1.parseHeader o1 expClass expTag expCompound bytes =
      GoAsn1.parseHeader o2 expClass expTag expCompound bytes ∨
    (GoAsn1.parseHeader o1 expClass expTag expCompound bytes =
        .error (Asn1Error.structural (GoAsn1.mismatchText o1)) ∧
      GoAsn1.parseHeader o2 expClass expTag expCompound bytes =
        .error (Asn1Error.structural (GoAsn1.mismatchText o2))) := by
  unfold GoAsn1.parseHeader
  cases bytes with
  | nil => left; rfl
  | cons b bs =>
    simp only
    cases GoAsn1.parseTagAndLength (b :: bs) with
    | error e => left; rfl
    | ok r =>
      obtain ⟨t, rest⟩ := r
      simp only
      split_ifs
      · right; exact ⟨rfl, rfl⟩
      · left; rfl
      · left; rfl

/-- Two PDU parses that differ in the address of the hint only agree, or both
fail at the outer header with the mismatch error and its address. -/
theorem UnmarshalPDU_addr (a1 a2 : Nat) (bytes : List Nat) (params : String) :
    GoAsn1.UnmarshalPDU a1 bytes params = GoAsn1.UnmarshalPDU a2 bytes params ∨
    (GoAsn1.UnmarshalPDU a1 bytes params =
        (PDU.zero, some (Asn1Error.structural (GoAsn1.mismatchText (some a1)))) ∧
      GoAsn1.UnmarshalPDU a2 bytes params =
        (PDU.zero, some (Asn1Error.structural (GoAsn1.mismatchText (some a2))))) := by
  unfold GoAsn1.UnmarshalPDU
  cases hh : GoAsn1.parseFieldParameters params with
  | none => left; rfl
  | some t =>
    simp only [Option.map_some']
    rcases parseHeader_addr (some a1) (some a2) (GoAsn1.expectedClass (some t))
      (GoAsn1.expectedTag (some t) 16) true bytes with h | ⟨h1, h2⟩
    · left
      rw [h]
    · right
      rw [h1, h2]
      exact ⟨rfl, rfl⟩

/-- C17 as amended: two runs of `decode` on the same buffer, with the tag hint
of the PDU parse at the addresses `a1` and `a2`, build the same response and
fail together; their errors are equal unless the body fails the class, tag
and compound check of the PDU parse, in which case each run returns the
error "Error decoding pdu" with the body bytes, the zero PDU and the mismatch
error that prints its own address. -/
theorem decode_two_runs (a1 a2 : Nat) (data : List Nat) (caller : PDUResponse) :
    (decode (goAsn1At a1) data caller).resp = (decode (goAsn1At a2) data caller).resp ∧
    ((decode (goAsn1At a1) data caller).err = none ↔
      (decode (goAsn1At a2) data caller).err = none) ∧
    ((decode (goAsn1At a1) data caller).err = (decode (goAsn1At a2) data caller).err ∨
      ∃ body,
        (decode (goAsn1At a1) data caller).err =
          some (Error.errorf "Error decoding pdu: %#v, %#v, %s"
            [Arg.bytes body, Arg.pdu PDU.zero,
              Arg.cause (Asn1Error.structural (GoAsn1.mismatchText (some a1)))]) ∧
        (decode (goAsn1At a2) data caller).err =
          some (Error.errorf "Error decoding pdu: %#v, %#v, %s"
            [Arg.bytes body, Arg.pdu PDU.zero,
              Arg.cause (Asn1Error.structural (GoAsn1.mismatchText (some a2)))])) := by
  unfold decode goAsn1At
  simp only
  cases GoAsn1.Unmarshal data with
  | error e => simp
  | ok m =>
    simp only
    by_cases ht : m.Data.Tag = 0x20 ∨ m.Data.Tag = 0x21 ∨ m.Data.Tag = 0x22
    · simp only [ht, if_true]
      rcases UnmarshalPDU_addr a1 a2 m.Data.FullBytes (sprintTag m.Data.Tag) with h | ⟨h1, h2⟩
      · rw [h]
        have hv : decodeVars ⟨GoAsn1.Unmarshal, GoAsn1.UnmarshalPDU a1, GoAsn1.UnmarshalValue⟩ m =
            decodeVars ⟨GoAsn1.Unmarshal, GoAsn1.UnmarshalPDU a2, GoAsn1.UnmarshalValue⟩ m := by
          funext vbs
          induction vbs with
          | nil => rfl
          | cons v rest ih =>
            funext c vars
            simp only [decodeVars]
            have hd : ∀ rv, decodeValue
                ⟨GoAsn1.Unmarshal, GoAsn1.UnmarshalPDU a1, GoAsn1.UnmarshalValue⟩ m v.Name
                  v.Value rv =
                decodeValue ⟨GoAsn1.Unmarshal, GoAsn1.UnmarshalPDU a2, GoAsn1.UnmarshalValue⟩ m
                  v.Name v.Value rv := fun _ => rfl
            rw [hd, ih]
        rw [hv]
        simp
      · rw [h1, h2]
        refine ⟨rfl, by simp, Or.inr ⟨m.Data.FullBytes, rfl, rfl⟩⟩
    · simp [ht]

end Gosnmp
